import Mathlib

/-!
Verification of the redis-event replication client against its specification.

The definitions below are a shallow embedding of `src/reader.rs` (the
byte-counting reader and the RDB length / integer / double primitives) and of
`src/listener.rs` (the PSYNC/SYNC handshake dispatch, the heartbeat gating and
the command-stream loop `receive_aof`).  The underlying byte source is
modelled as a list of bytes (each a `Nat` below 256); fallible reads return an
`Except` result *paired with* the post-state, matching Rust's `&mut self`
semantics where mutations performed before an early `?` return persist.
-/

namespace RedisEvent

/-- Error kinds of `std::io::ErrorKind` that the sources distinguish. -/
inductive ErrKind
  | unexpectedEof
  | invalidData
  | otherErr
  | wouldBlock
  | timedOut
deriving DecidableEq

/-- The counting reader of `reader.rs`: a wrapped byte stream, the byte
counter `len`, and the `marked` flag. -/
structure Reader where
  stream : List Nat
  len : Int
  marked : Bool
deriving DecidableEq

/-- `Reader::read_u8`: read one byte; while marked, add 1 to the counter. -/
def read_u8 (r : Reader) : Except ErrKind Nat × Reader :=
  match r.stream with
  | [] => (Except.error ErrKind.unexpectedEof, r)
  | b :: rest =>
      (Except.ok b,
        { r with stream := rest, len := r.len + (if r.marked then 1 else 0) })

/-- `Reader::read_exact`: fill a buffer of `n` bytes; while marked, add the
buffer length to the counter.  On a short source the read fails and the
counter is untouched (the `?` returns before the increment). -/
def read_exact (r : Reader) (n : Nat) : Except ErrKind (List Nat) × Reader :=
  if n ≤ r.stream.length then
    (Except.ok (r.stream.take n),
      { r with stream := r.stream.drop n,
               len := r.len + (if r.marked then (n : Int) else 0) })
  else (Except.error ErrKind.unexpectedEof, r)

/-- Two's-complement reading of a `w`-bit value. -/
def toSigned (w : Nat) (n : Nat) : Int :=
  if n < 2 ^ (w - 1) then (n : Int) else (n : Int) - 2 ^ w

/-- Big-endian value of a byte list. -/
def beNat (bytes : List Nat) : Nat :=
  bytes.foldl (fun acc b => acc * 256 + b) 0

/-- Little-endian value of a byte list. -/
def leNat (bytes : List Nat) : Nat :=
  beNat bytes.reverse

/-- `Reader::read_i8`: read one byte as a signed 8-bit integer; while marked,
add 1 to the counter. -/
def read_i8 (r : Reader) : Except ErrKind Int × Reader :=
  match r.stream with
  | [] => (Except.error ErrKind.unexpectedEof, r)
  | b :: rest =>
      (Except.ok (toSigned 8 b),
        { r with stream := rest, len := r.len + (if r.marked then 1 else 0) })

/-- `Reader::read_i64::<T>`: read 8 bytes as a signed 64-bit integer in the
given endianness; while marked, add 8 to the counter. -/
def read_i64 (r : Reader) (bigEndian : Bool) : Except ErrKind Int × Reader :=
  if 8 ≤ r.stream.length then
    (Except.ok (toSigned 64 (if bigEndian then beNat (r.stream.take 8)
                             else leNat (r.stream.take 8))),
      { r with stream := r.stream.drop 8,
               len := r.len + (if r.marked then 8 else 0) })
  else (Except.error ErrKind.unexpectedEof, r)

/-- `Reader::mark`: set the marked flag.  (The counter is not touched.) -/
def mark (r : Reader) : Reader :=
  { r with marked := true }

/-- `Reader::unmark`: if marked, return the counter, reset it and clear the
flag; otherwise fail. -/
def unmark (r : Reader) : Except ErrKind Int × Reader :=
  if r.marked then
    (Except.ok r.len, { r with len := 0, marked := false })
  else (Except.error ErrKind.otherErr, r)

/-- `Reader::read_integer`: read `size` bytes through `read_exact`, then
decode them as a signed 16-, 32- or 64-bit integer; any other size yields an
`InvalidData` error after the bytes were already consumed. -/
def read_integer (r : Reader) (size : Nat) (is_big_endian : Bool) :
    Except ErrKind Int × Reader :=
  match read_exact r size with
  | (Except.error e, r1) => (Except.error e, r1)
  | (Except.ok buff, r1) =>
    if is_big_endian then
      if size = 2 then (Except.ok (toSigned 16 (beNat buff)), r1)
      else if size = 4 then (Except.ok (toSigned 32 (beNat buff)), r1)
      else if size = 8 then (Except.ok (toSigned 64 (beNat buff)), r1)
      else (Except.error ErrKind.invalidData, r1)
    else
      if size = 2 then (Except.ok (toSigned 16 (leNat buff)), r1)
      else if size = 4 then (Except.ok (toSigned 32 (leNat buff)), r1)
      else if size = 8 then (Except.ok (toSigned 64 (leNat buff)), r1)
      else (Except.error ErrKind.invalidData, r1)

/-- `Reader::read_length`: the RDB length decoder.  `result` is initialised
to `-1` in the source and is returned unchanged when the first byte has high
bits `10` but selects neither the 32-bit (`0x80`) nor the 64-bit (`0x81`)
form. -/
def read_length (r : Reader) : Except ErrKind (Int × Bool) × Reader :=
  match read_u8 r with
  | (Except.error e, r1) => (Except.error e, r1)
  | (Except.ok byte, r1) =>
    let t := (byte &&& 0xC0) >>> 6
    if t = 3 then (Except.ok (((byte &&& 0x3F : Nat) : Int), true), r1)
    else if t = 0 then (Except.ok (((byte &&& 0x3F : Nat) : Int), false), r1)
    else if t = 1 then
      match read_u8 r1 with
      | (Except.error e, r2) => (Except.error e, r2)
      | (Except.ok nextByte, r2) =>
          (Except.ok ((((((byte &&& 0x3F) <<< 8) ||| nextByte : Nat)) : Int),
            false), r2)
    else if byte = 0x80 then
      match read_integer r1 4 true with
      | (Except.error e, r2) => (Except.error e, r2)
      | (Except.ok v, r2) => (Except.ok (v, false), r2)
    else if byte = 0x81 then
      match read_integer r1 8 true with
      | (Except.error e, r2) => (Except.error e, r2)
      | (Except.ok v, r2) => (Except.ok (v, false), r2)
    else (Except.ok (-1, false), r1)

/-- ASCII bytes of a string, as Rust's `String::into_bytes` yields for the
ASCII renderings used here. -/
def asciiBytes (s : String) : List Nat :=
  s.data.map Char.toNat

/-- `Reader::read_double`: byte 255 renders negative infinity, 254 positive
infinity, 253 NaN.  Otherwise the source allocates `Vec::with_capacity(len)`,
whose length is 0, so the following `read_exact` fills zero bytes and the
empty buffer is returned. -/
def read_double (r : Reader) : Except ErrKind (List Nat) × Reader :=
  match read_u8 r with
  | (Except.error e, r1) => (Except.error e, r1)
  | (Except.ok len, r1) =>
    if len = 255 then (Except.ok (asciiBytes "-inf"), r1)
    else if len = 254 then (Except.ok (asciiBytes "inf"), r1)
    else if len = 253 then (Except.ok (asciiBytes "NaN"), r1)
    else
      match read_exact r1 0 with
      | (Except.error e, r2) => (Except.error e, r2)
      | (Except.ok buff, r2) => (Except.ok buff, r2)

/-- One read primitive of the counting reader, as interleaved by its
callers. -/
inductive ReadOp
  | u8
  | exact (n : Nat)
  | i8
  | i64 (bigEndian : Bool)
deriving DecidableEq

/-- Number of stream bytes a successful read primitive consumes. -/
def opBytes : ReadOp → Nat
  | ReadOp.u8 => 1
  | ReadOp.exact n => n
  | ReadOp.i8 => 1
  | ReadOp.i64 _ => 8

/-- Run one read primitive, keeping only the reader state. -/
def runOp (r : Reader) : ReadOp → Except ErrKind Unit × Reader
  | ReadOp.u8 =>
      match read_u8 r with
      | (Except.error e, r1) => (Except.error e, r1)
      | (Except.ok _, r1) => (Except.ok (), r1)
  | ReadOp.exact n =>
      match read_exact r n with
      | (Except.error e, r1) => (Except.error e, r1)
      | (Except.ok _, r1) => (Except.ok (), r1)
  | ReadOp.i8 =>
      match read_i8 r with
      | (Except.error e, r1) => (Except.error e, r1)
      | (Except.ok _, r1) => (Except.ok (), r1)
  | ReadOp.i64 be =>
      match read_i64 r be with
      | (Except.error e, r1) => (Except.error e, r1)
      | (Except.ok _, r1) => (Except.ok (), r1)

/-- Run a sequence of read primitives; `none` when one of them fails. -/
def runReads (r : Reader) : List ReadOp → Option Reader
  | [] => some r
  | op :: ops =>
      match runOp r op with
      | (Except.ok _, r1) => runReads r1 ops
      | (Except.error _, _) => none

/-! ## Listener embedding (`listener.rs`) -/

/-- `listener::Mode`. -/
inductive Mode
  | PSync
  | Sync
  | Wait
deriving DecidableEq

/-- `listener::NextStep`. -/
inductive NextStep
  | FullSync
  | PartialResync
  | ChangeMode
  | Wait
deriving DecidableEq

/-- The RESP value type tags (`resp::Type`), as inspected by the listener. -/
inductive RespType
  | SimpleString
  | RespError
  | RespInt
  | BulkBytes
  | RespArray
deriving DecidableEq

/-- RESP values as the listener consumes them: `Resp::String`,
`Resp::Error`, `Resp::Int`, `Resp::BulkBytes`, `Resp::Array`. -/
inductive Resp
  | simple (s : String)
  | respErr (s : String)
  | int (i : Int)
  | bulk (bytes : List Nat)
  | array (items : List Resp)

/-- The extraction loop of `receive_aof`: push the payload of each
`BulkBytes` element; any other element panics. -/
def extractBulks : List Resp → Option (List (List Nat))
  | [] => some []
  | Resp.bulk b :: rest => (extractBulks rest).map (fun v => b :: v)
  | _ => none

/-- One iteration's inputs to `receive_aof`: the result of
`reader.decode_resp()` and the bytes the counting reader consumed while
decoding it (whose number `reader.reset()` reports). -/
structure AofIteration where
  decoded : Except ErrKind Resp
  consumed : List Nat

/-- Control outcome of one `receive_aof` iteration. -/
inductive StepResult
  | cont (offset : Int)
  | fatal (e : ErrKind)
  | panicked
deriving DecidableEq

/-- One iteration of the `receive_aof` loop: a decode error propagates via
`?` (no retry, for timeout kinds too); a non-array reply panics; a non-bulk
element panics; otherwise `repl_offset` advances by the consumed byte
count. -/
def receiveAofStep (offset : Int) (it : AofIteration) : StepResult :=
  match it.decoded with
  | Except.error e => StepResult.fatal e
  | Except.ok (Resp.array items) =>
      match extractBulks items with
      | some _ => StepResult.cont (offset + (it.consumed.length : Int))
      | none => StepResult.panicked
  | Except.ok _ => StepResult.panicked

/-- The successive values of `config.repl_offset` produced by the
`receive_aof` loop run on a list of iterations, stopping where the loop
returns or panics. -/
def receiveAofTrace (offset : Int) : List AofIteration → List Int
  | [] => []
  | it :: rest =>
      match receiveAofStep offset it with
      | StepResult.cont o => o :: receiveAofTrace o rest
      | _ => []

/-- `Listener::start_heartbeat` spawns the worker unless the running flag is
cleared or the mode is `Sync`. -/
def start_heartbeat_spawns (running : Bool) (mode : Mode) : Bool :=
  if !running then false
  else
    match mode with
    | Mode.Sync => false
    | _ => true

/-- Observable tail behaviour of `start()` after the sync loop chose a
mode. -/
structure StartTail where
  heartbeatStarted : Bool
  receiveAofEntered : Bool
deriving DecidableEq

/-- The tail of `RedisListener::start` for `listener.rs`: when `is_aof` is
false it returns at once; otherwise it calls `start_heartbeat(&mode)` and
then `receive_aof(&mode)`, whatever the mode. -/
def startTail (mode : Mode) (is_aof running : Bool) : StartTail :=
  if !is_aof then ⟨false, false⟩
  else ⟨start_heartbeat_spawns running mode, true⟩

/-- The error text `ERR unknown command 'PSYNC'` that `psync` compares
against (39 is the ASCII quote). -/
def psyncUnknownText : String :=
  "ERR unknown command " ++ String.singleton (Char.ofNat 39) ++ "PSYNC"
    ++ String.singleton (Char.ofNat 39)

/-- The `Err` branch of `Listener::psync`: only the literal
`ERR unknown command 'PSYNC'` becomes `NextStep::ChangeMode`; every other
error is returned to the caller. -/
def psyncErrorBranch (errText : String) : Except String (NextStep × Int) :=
  if errText = psyncUnknownText then Except.ok (NextStep.ChangeMode, -1)
  else Except.error errText

/-- Whether `Listener::start_sync` sends the `SYNC` command, as a function
of what `psync` returned: only on `NextStep::ChangeMode`. -/
def start_sync_sendsSync (psyncResult : Except String (NextStep × Int)) :
    Bool :=
  match psyncResult with
  | Except.ok (NextStep.ChangeMode, _) => true
  | Except.ok (NextStep.FullSync, _) => false
  | Except.ok (NextStep.PartialResync, _) => false
  | Except.ok (NextStep.Wait, _) => false
  | Except.error _ => false

/-- Rust's `str::starts_with`, on the underlying characters. -/
def strStartsWith (s p : String) : Bool :=
  p.data.isPrefixOf s.data

/-- Helper for `split_whitespace`: walk the characters, accumulating the
current (reversed) token. -/
def splitWsAux : List Char → List Char → List String
  | [], acc => if acc.isEmpty then [] else [String.mk acc.reverse]
  | c :: cs, acc =>
      if c.isWhitespace then
        if acc.isEmpty then splitWsAux cs []
        else String.mk acc.reverse :: splitWsAux cs []
      else splitWsAux cs (c :: acc)

/-- Rust's `str::split_whitespace`: split on whitespace runs, no empty
tokens. -/
def split_whitespace (s : String) : List String :=
  splitWsAux s.data []

/-- Decimal digit value of a character, if any. -/
def digitVal (c : Char) : Option Nat :=
  if 48 ≤ c.toNat ∧ c.toNat ≤ 57 then some (c.toNat - 48) else none

/-- Accumulate decimal digits into a number; `none` on a non-digit. -/
def digitsToNatAux : List Char → Nat → Option Nat
  | [], acc => some acc
  | c :: cs, acc =>
      match digitVal c with
      | some d => digitsToNatAux cs (acc * 10 + d)
      | none => none

/-- Parse a non-empty all-digit character list. -/
def digitsToNat : List Char → Option Nat
  | [] => none
  | c :: cs => digitsToNatAux (c :: cs) 0

/-- Rust's `str::parse::<i64>` on the inputs the handshake sees: an
optional sign followed by decimal digits.  (The i64 range check is elided:
replication offsets fit.) -/
def parse_i64 (s : String) : Option Int :=
  match s.data with
  | [] => none
  | c :: cs =>
      if c = Char.ofNat 45 then (digitsToNat cs).map (fun n => -(n : Int))
      else if c = Char.ofNat 43 then (digitsToNat cs).map (fun n => (n : Int))
      else (digitsToNat (c :: cs)).map (fun n => (n : Int))

/-- Outcome of the `Ok` branch of `Listener::psync`: a returned value, a
returned error, or a process-aborting `panic!`. -/
inductive POutcome
  | ok (step : NextStep) (len : Int) (repl_id : String) (repl_offset : Int)
  | errResult (msg : String)
  | panicked (msg : String)
deriving DecidableEq

/-- The `Ok(response)` branch of `Listener::psync`.  `cfgId`/`cfgOffset` are
`config.repl_id`/`config.repl_offset`; `nextType` and `nextInt` are what
`conn.decode_type()` and `conn.decode_int()` would yield next.  Every
unexpected shape runs a `panic!` in the source. -/
def psyncHandleResponse (cfgId : String) (cfgOffset : Int) (response : Resp)
    (nextType : RespType) (nextInt : Resp) : POutcome :=
  match response with
  | Resp.simple s =>
    if strStartsWith s "FULLRESYNC" then
      let toks := split_whitespace s
      match toks.get? 1 with
      | none => POutcome.panicked "Expect replication id, but got None"
      | some newId =>
        match toks.get? 2 with
        | none => POutcome.panicked "Expect replication offset, but got None"
        | some offTok =>
          match parse_i64 offTok with
          | none => POutcome.panicked "called unwrap on an Err value"
          | some newOffset =>
            match nextType with
            | RespType.BulkBytes =>
              match nextInt with
              | Resp.int length =>
                  POutcome.ok NextStep.FullSync length newId newOffset
              | _ => POutcome.panicked "Expect int response"
            | _ => POutcome.panicked "Expect BulkString response"
    else if strStartsWith s "CONTINUE" then
      let toks := split_whitespace s
      let newId :=
        match toks.get? 1 with
        | some tok => if tok = cfgId then cfgId else tok
        | none => cfgId
      POutcome.ok NextStep.PartialResync (-1) newId cfgOffset
    else if strStartsWith s "NOMASTERLINK" then
      POutcome.ok NextStep.Wait (-1) cfgId cfgOffset
    else if strStartsWith s "LOADING" then
      POutcome.ok NextStep.Wait (-1) cfgId cfgOffset
    else POutcome.panicked "Unexpected Response"
  | _ => POutcome.panicked "Unexpected Response"

/-! ## Counting lemmas for the reader -/

/-- A successful read primitive on a marked reader keeps it marked and adds
exactly the consumed byte count to the counter. -/
theorem runOp_count (op : ReadOp) (r r1 : Reader) (hm : r.marked = true)
    (h : runOp r op = (Except.ok (), r1)) :
    r1.marked = true ∧ r1.len = r.len + (opBytes op : Int) := by
  cases op with
  | u8 =>
      cases hs : r.stream with
      | nil => simp [runOp, read_u8, hs] at h
      | cons b rest =>
          simp [runOp, read_u8, hs, hm] at h
          subst h
          simp [opBytes]
  | exact n =>
      by_cases hn : n ≤ r.stream.length
      · simp [runOp, read_exact, hn, hm] at h
        subst h
        simp [opBytes]
      · simp [runOp, read_exact, hn] at h
  | i8 =>
      cases hs : r.stream with
      | nil => simp [runOp, read_i8, hs] at h
      | cons b rest =>
          simp [runOp, read_i8, hs, hm] at h
          subst h
          simp [opBytes]
  | i64 be =>
      by_cases hn : 8 ≤ r.stream.length
      · simp [runOp, read_i64, hn, hm] at h
        subst h
        simp [opBytes]
      · simp [runOp, read_i64, hn] at h

/-- A successful sequence of reads on a marked reader keeps it marked and
adds to the counter the sum of the byte counts of the individual reads. -/
theorem runReads_count (ops : List ReadOp) (r r2 : Reader)
    (hm : r.marked = true) (h : runReads r ops = some r2) :
    r2.marked = true ∧ r2.len = r.len + ((ops.map opBytes).sum : Int) := by
  induction ops generalizing r with
  | nil =>
      simp [runReads] at h
      subst h
      simp [hm]
  | cons op ops ih =>
      unfold runReads at h
      rcases hop : runOp r op with ⟨res, r1⟩
      rw [hop] at h
      cases res with
      | error e => simp at h
      | ok u =>
          cases u
          obtain ⟨h1, h2⟩ := runOp_count op r r1 hm hop
          obtain ⟨h3, h4⟩ := ih r1 h1 h
          refine ⟨h3, ?_⟩
          rw [h4, h2]
          simp only [List.map_cons, List.sum_cons]
          push_cast
          ring

/-! ## Claim theorems -/

/-- Claim C1: for every sequence of successful reads interleaving
`read_u8`, `read_exact`, `read_i8` and `read_i64` performed between a call
to `mark()` and the next call to `unmark()` on the counting reader, the
value returned by `unmark()` equals the total number of bytes consumed from
the underlying stream (1 for `read_u8`, the buffer length for `read_exact`,
1 for `read_i8`, 8 for `read_i64`). -/
theorem c1_unmark_counts_all_reads (s s1 : Reader) (ops : List ReadOp)
    (hm : s.marked = false) (h0 : s.len = 0)
    (hrun : runReads (mark s) ops = some s1) :
    (unmark s1).1 = Except.ok (((ops.map opBytes).sum : Nat) : Int) := by
  obtain ⟨g1, g2⟩ := runReads_count ops (mark s) s1 rfl hrun
  have hlen : (mark s).len = s.len := rfl
  rw [hlen, h0, zero_add] at g2
  simp [unmark, g1, g2]

/-- Witness for C1: marking, then `read_u8`, `read_exact` of 2 bytes,
`read_i8` and a big-endian `read_i64` consume 12 bytes, and `unmark`
reports 12. -/
theorem c1_unmark_counts_all_reads_witness :
    (unmark { stream := [], len := 12, marked := true }).1 =
      Except.ok ((([ReadOp.u8, ReadOp.exact 2, ReadOp.i8,
        ReadOp.i64 true].map opBytes).sum : Nat) : Int) :=
  c1_unmark_counts_all_reads
    { stream := [1, 2, 3, 4, 5, 6, 7, 8, 9, 10, 11, 12], len := 0,
      marked := false }
    { stream := [], len := 12, marked := true }
    [ReadOp.u8, ReadOp.exact 2, ReadOp.i8, ReadOp.i64 true]
    rfl rfl (by decide)

/-- Counterexample to claim C8: after `mark(); read_u8(); mark();
read_u8()`, the next `unmark()` returns 2 — the bytes read since the FIRST
mark — whereas the claim (mark resets the counter) says 1 would be
returned, the bytes read since the most recent mark. -/
theorem c8_counterexample :
    (unmark ((read_u8 (mark ((read_u8 (mark
        { stream := [7, 8], len := 0, marked := false })).2))).2)).1 =
      Except.ok 2 ∧ (2 : Int) ≠ 1 :=
  ⟨rfl, by decide⟩

/-- Claim C8 (amended): `mark()` sets the marked flag and leaves the
counter unchanged (the counter is zero whenever the reader is unmarked, so
a first mark starts the count at zero); `unmark()` returns the counter,
resets it and clears the flag, and fails when not marked; after two
consecutive `mark()` calls with no intervening `unmark()`, the next
`unmark()` returns the bytes read since the first mark. -/
theorem c8_mark_unmark_semantics (r s s1 s2 : Reader)
    (ops1 ops2 : List ReadOp) (hm : s.marked = false) (h0 : s.len = 0)
    (h1 : runReads (mark s) ops1 = some s1)
    (h2 : runReads (mark s1) ops2 = some s2) :
    mark r = { r with marked := true } ∧
    unmark r = (if r.marked then
        (Except.ok r.len, { r with len := 0, marked := false })
      else (Except.error ErrKind.otherErr, r)) ∧
    (unmark s2).1 =
      Except.ok ((((ops1.map opBytes).sum + (ops2.map opBytes).sum : Nat))
        : Int) := by
  refine ⟨rfl, rfl, ?_⟩
  obtain ⟨g1, g2⟩ := runReads_count ops1 (mark s) s1 rfl h1
  obtain ⟨g3, g4⟩ := runReads_count ops2 (mark s1) s2 rfl h2
  have e1 : (mark s).len = s.len := rfl
  have e2 : (mark s1).len = s1.len := rfl
  rw [e1, h0, zero_add] at g2
  rw [e2, g2] at g4
  simp only [unmark, g3, if_true]
  rw [g4]
  push_cast
  ring_nf

/-- Witness for C8: one `read_u8` after a first mark and one after a second
mark; the final `unmark` reports both bytes. -/
theorem c8_mark_unmark_semantics_witness :
    mark (Reader.mk [] 0 false) = Reader.mk [] 0 true ∧
    unmark (Reader.mk [] 0 false) =
      (if (Reader.mk [] 0 false).marked then
        (Except.ok (0 : Int), Reader.mk [] 0 false)
      else (Except.error ErrKind.otherErr, Reader.mk [] 0 false)) ∧
    (unmark (Reader.mk [] 2 true)).1 =
      Except.ok (((([ReadOp.u8].map opBytes).sum
        + ([ReadOp.u8].map opBytes).sum : Nat)) : Int) :=
  c8_mark_unmark_semantics
    (Reader.mk [] 0 false) (Reader.mk [7, 8] 0 false)
    (Reader.mk [8] 1 true) (Reader.mk [] 2 true)
    [ReadOp.u8] [ReadOp.u8] rfl rfl (by decide) (by decide)

/-- Claim C10: for a size outside {2, 4, 8} (witnessed at 1),
`read_integer` first consumes exactly `size` bytes from the stream, adding
them to the counter when marked, and only then returns an `InvalidData`
error; neither the stream position nor the counter is restored. -/
theorem c10_read_integer_consumes_then_errors (r : Reader) (size : Nat)
    (b : Bool) (h2 : size ≠ 2) (h4 : size ≠ 4) (h8 : size ≠ 8)
    (hlen : size ≤ r.stream.length) :
    read_integer r size b =
      (Except.error ErrKind.invalidData,
        { r with stream := r.stream.drop size,
                 len := r.len + (if r.marked then (size : Int) else 0) }) := by
  unfold read_integer read_exact
  rw [if_pos hlen]
  cases b <;> simp [h2, h4, h8]

/-- Witness for C10: `read_integer` with size 1 on a marked reader consumes
the byte, bumps the counter to 1, and returns `InvalidData`. -/
theorem c10_read_integer_consumes_then_errors_witness :
    read_integer { stream := [9, 9], len := 0, marked := true } 1 true =
      (Except.error ErrKind.invalidData,
        { stream := [9], len := 1, marked := true }) :=
  (c10_read_integer_consumes_then_errors
    { stream := [9, 9], len := 0, marked := true } 1 true
    (by decide) (by decide) (by decide) (by decide)).trans rfl

/-- Claim C4, evaluated at the failing input: `read_double` does render the
three special first bytes 255/254/253 as the text of negative infinity,
positive infinity and NaN, but for first byte 5 followed by the ASCII text
`3.125` it reads ZERO further bytes (the source passes a
`Vec::with_capacity` buffer of length 0 to `read_exact`) and returns the
empty vector, leaving the 5 payload bytes unconsumed. -/
theorem c4_read_double_evaluation :
    (read_double { stream := [255], len := 0, marked := false }).1 =
        Except.ok (asciiBytes "-inf") ∧
    (read_double { stream := [254], len := 0, marked := false }).1 =
        Except.ok (asciiBytes "inf") ∧
    (read_double { stream := [253], len := 0, marked := false }).1 =
        Except.ok (asciiBytes "NaN") ∧
    read_double (Reader.mk [5, 51, 46, 49, 50, 53] 0 true) =
      (Except.ok [], Reader.mk [51, 46, 49, 50, 53] 1 true) :=
  ⟨rfl, rfl, rfl, rfl⟩

/-- Claim C7, evaluated at the failing input: a first length byte `0x82`
(high bits `10`, low six bits selecting neither the 32-bit nor the 64-bit
form) does NOT abort decoding: `read_length` returns the ordinary value
`(-1, false)` left over from the `result = -1` initialisation. -/
theorem c7_malformed_length_returns_ordinary_value :
    read_length { stream := [0x82], len := 0, marked := false } =
      (Except.ok (-1, false),
        { stream := [], len := 0, marked := false }) := rfl

/-- Counterexample to claim C2: a decode error of timeout kind
(`WouldBlock` or `TimedOut`) makes the `receive_aof` iteration return the
error fatally instead of retrying. -/
theorem c2_counterexample :
    receiveAofStep 0 (AofIteration.mk (Except.error ErrKind.wouldBlock) [])
        = StepResult.fatal ErrKind.wouldBlock ∧
      receiveAofStep 0 (AofIteration.mk (Except.error ErrKind.timedOut) [])
        = StepResult.fatal ErrKind.timedOut :=
  ⟨rfl, rfl⟩

/-- Claim C2 (amended): every I/O error yielded by decoding a reply in
`receive_aof`, including the timeout kinds `WouldBlock` and `TimedOut`,
causes `receive_aof` (and hence `start()`) to return that error; the loop
never retries on a timeout and `repl_offset` is not advanced (the trace of
offsets ends at the erroring iteration). -/
theorem c2_every_decode_error_is_fatal (offset : Int) (e : ErrKind)
    (bytes : List Nat) (rest : List AofIteration) :
    receiveAofStep offset (AofIteration.mk (Except.error e) bytes) =
        StepResult.fatal e ∧
      receiveAofTrace offset (AofIteration.mk (Except.error e) bytes :: rest)
        = [] := by
  exact ⟨rfl, by simp [receiveAofTrace, receiveAofStep]⟩

/-- Counterexample to claim C3: with `mode = Sync` and `is_aof = true`,
`start()` does enter the command-stream phase (`receive_aof` is called), so
Sync mode does not imply that `start()` returns right after the dump. -/
theorem c3_counterexample :
    (startTail Mode.Sync true true).receiveAofEntered = true := rfl

/-- Claim C3 (amended): in Sync mode the heartbeat worker is never started,
but `start()` still enters the command-stream phase exactly when `is_aof`
is true; it returns without decoding any command only when `is_aof` is
false. -/
theorem c3_sync_no_heartbeat_but_stream (is_aof running : Bool) :
    (startTail Mode.Sync is_aof running).heartbeatStarted = false ∧
    (startTail Mode.Sync is_aof running).receiveAofEntered = is_aof := by
  cases is_aof <;> cases running <;>
    simp [startTail, start_heartbeat_spawns]

/-- Claim C5: the driver falls back to sending `SYNC` exactly when the
PSYNC reply is an error whose text is literally
`ERR unknown command 'PSYNC'`; any other PSYNC error is returned to the
caller and no `SYNC` is sent. -/
theorem c5_sync_fallback_iff_literal_error (t : String) :
    (start_sync_sendsSync (psyncErrorBranch t) = true ↔
      t = psyncUnknownText) ∧
    (t ≠ psyncUnknownText →
      psyncErrorBranch t = Except.error t ∧
      start_sync_sendsSync (psyncErrorBranch t) = false) := by
  constructor
  · constructor
    · intro h
      by_contra hne
      simp [psyncErrorBranch, hne, start_sync_sendsSync] at h
    · intro h
      simp [psyncErrorBranch, h, start_sync_sendsSync]
  · intro hne
    simp [psyncErrorBranch, hne, start_sync_sendsSync]

/-- Witness for C5: the error text `ERR wrong` is returned to the caller
and no `SYNC` is sent. -/
theorem c5_sync_fallback_iff_literal_error_witness :
    psyncErrorBranch "ERR wrong" = Except.error "ERR wrong" ∧
    start_sync_sendsSync (psyncErrorBranch "ERR wrong") = false :=
  (c5_sync_fallback_iff_literal_error "ERR wrong").2 (by decide)

/-- Counterexample to claim C6: a `FULLRESYNC` reply with the replication
id missing makes `psync` (and hence `start()`) panic — crash the process —
rather than return a protocol error to the caller. -/
theorem c6_counterexample :
    psyncHandleResponse "?" (-1) (Resp.simple "FULLRESYNC")
        RespType.BulkBytes (Resp.int 0) =
      POutcome.panicked "Expect replication id, but got None" := rfl

/-- Claim C6 (amended): for every handshake reply of unexpected shape — a
`FULLRESYNC` reply missing the replication id or the offset, a non-string
PSYNC reply, or a bulk-length header that is missing — `psync` (and hence
`start()`) terminates by `panic!`, a crash, not by returning the error as a
fallible result. -/
theorem c6_malformed_replies_panic (cfgId : String) (cfgOffset n : Int)
    (t : RespType) (ni : Resp) :
    psyncHandleResponse cfgId cfgOffset (Resp.int n) t ni =
        POutcome.panicked "Unexpected Response" ∧
    psyncHandleResponse cfgId cfgOffset (Resp.simple "FULLRESYNC") t ni =
        POutcome.panicked "Expect replication id, but got None" ∧
    psyncHandleResponse cfgId cfgOffset (Resp.simple "FULLRESYNC abc") t ni
        = POutcome.panicked "Expect replication offset, but got None" ∧
    psyncHandleResponse cfgId cfgOffset (Resp.simple "FULLRESYNC abc 10")
        RespType.RespInt ni =
        POutcome.panicked "Expect BulkString response" :=
  ⟨rfl, rfl, rfl, rfl⟩

/-- Claim C9: while in command-stream mode, `config.repl_offset` is
monotonically non-decreasing — along any run of the `receive_aof` loop, the
offset after the Nth command is at least the offset after the previous
one. -/
theorem c9_repl_offset_monotone (offset : Int) (its : List AofIteration) :
    List.Chain' (fun a b => a ≤ b) (offset :: receiveAofTrace offset its) := by
  induction its generalizing offset with
  | nil => simp [receiveAofTrace]
  | cons it rest ih =>
      unfold receiveAofTrace
      cases hstep : receiveAofStep offset it with
      | cont o =>
          have hle : offset ≤ o := by
            obtain ⟨dec, consumed⟩ := it
            cases dec with
            | error e => simp [receiveAofStep] at hstep
            | ok resp =>
                cases resp with
                | array items =>
                    cases hb : extractBulks items with
                    | none => simp [receiveAofStep, hb] at hstep
                    | some v =>
                        simp [receiveAofStep, hb] at hstep
                        omega
                | simple s => simp [receiveAofStep] at hstep
                | respErr s => simp [receiveAofStep] at hstep
                | int i => simp [receiveAofStep] at hstep
                | bulk bytes => simp [receiveAofStep] at hstep
          rw [List.chain'_cons]
          exact ⟨hle, ih o⟩
      | fatal e => simp
      | panicked => simp

end RedisEvent
